import Mathlib

/-!
Verification development for the reconnecting WebSocket client
(`WebSocketService` in `frontend/src/pages/AuthPage.js`).

The client is embedded as a pure state machine.  A `State` records the
fields of the JS object (`socket`, `reconnectAttempts`,
`maxReconnectAttempts`, `reconnectInterval`, `listeners` is modelled
separately) together with the bookkeeping the temporal claims need: the
pending `setTimeout` timers, the simulated clock, the ids of every
transport ever constructed, the token captured by the handlers of each
constructed transport, and the log of events emitted through `this.emit`.

Environment events (transport open/close/error, timer expiry) and API
calls (`connect`, `disconnect`) are `Event`s interpreted by `step`.  The
handlers attached in `connect` stay attached to the transport object even
after `disconnect` drops the reference, exactly as in the source, so a
close event for a discarded transport still runs the close handler.
-/

namespace RealtimeClient

/-- The readyState constants of a WebSocket transport. -/
inductive ReadyState
  | CONNECTING
  | OPEN
  | CLOSING
  | CLOSED
deriving DecidableEq

/-- A transport object: its construction id and its current readyState. -/
structure Socket where
  id : Nat
  readyState : ReadyState
deriving DecidableEq

/-- A pending setTimeout scheduled by attemptReconnect: absolute expiry
time and the credential the closure captured. -/
structure Timer where
  fireAt : Nat
  token : String
deriving DecidableEq

/-- One record in the log of events emitted via this.emit.  The
connection events carry a status payload; maxReconnectAttemptsReached and
error carry none that the claims inspect. -/
structure EmitRecord where
  event : String
  payload : Option String
deriving DecidableEq

/-- A {type, payload} frame, used both for outbound sends
(JSON.stringify of {type, payload}) and for parsed inbound data. -/
structure Frame where
  type : String
  payload : String
deriving DecidableEq

/-- The client state.  socket is the current this.socket reference;
handlerTokens maps every constructed transport id to the token its
handlers closed over (handlers are never detached in the source). -/
structure State where
  socket : Option Socket
  reconnectAttempts : Nat
  maxReconnectAttempts : Nat
  reconnectInterval : Nat
  timers : List Timer
  now : Nat
  nextId : Nat
  created : List Nat
  handlerTokens : List (Nat × String)
  emitted : List EmitRecord
deriving DecidableEq

/-- The constructor: socket null, counter 0, budget 5, base interval
1000 ms. -/
def initState : State :=
  { socket := none
    reconnectAttempts := 0
    maxReconnectAttempts := 5
    reconnectInterval := 1000
    timers := []
    now := 0
    nextId := 0
    created := []
    handlerTokens := []
    emitted := [] }

/-- this.emit(event, payload) as seen by the lifecycle model: append a
record to the emission log. -/
def emitEv (event : String) (payload : Option String) (s : State) : State :=
  { s with emitted := s.emitted ++ [⟨event, payload⟩] }

/-- new WebSocket(wsUrl) plus handler registration: a fresh transport in
CONNECTING state becomes this.socket, and its handlers capture the
token. -/
def mkSocket (token : String) (s : State) : State :=
  { s with
      socket := some ⟨s.nextId, ReadyState.CONNECTING⟩
      nextId := s.nextId + 1
      created := s.created ++ [s.nextId]
      handlerTokens := s.handlerTokens ++ [(s.nextId, token)] }

/-- connect(token): return immediately when this.socket exists and its
readyState is OPEN, otherwise construct a new transport. -/
def connect (token : String) (s : State) : State :=
  match s.socket with
  | some sock => if sock.readyState = ReadyState.OPEN then s else mkSocket token s
  | none => mkSocket token s

/-- disconnect(): when a socket exists, close it and null the reference.
No flag is set and no timer is cancelled. -/
def disconnect (s : State) : State :=
  match s.socket with
  | some _ => { s with socket := none }
  | none => s

/-- attemptReconnect(token): when the counter is below the budget,
increment it and schedule a connect after reconnectInterval *
reconnectAttempts ms; otherwise emit maxReconnectAttemptsReached. -/
def attemptReconnect (token : String) (s : State) : State :=
  if s.reconnectAttempts < s.maxReconnectAttempts then
    { s with
        reconnectAttempts := s.reconnectAttempts + 1
        timers := s.timers ++
          [⟨s.now + s.reconnectInterval * (s.reconnectAttempts + 1), token⟩] }
  else
    emitEv "maxReconnectAttemptsReached" none s

/-- Record the readyState change of transport i, visible through
this.socket only while the reference still points at it. -/
def setReady (i : Nat) (r : ReadyState) (s : State) : State :=
  match s.socket with
  | some sock => if sock.id = i then { s with socket := some ⟨i, r⟩ } else s
  | none => s

/-- The onopen handler of transport i: reset the counter and emit the
connection event with status connected. -/
def onopenHandler (i : Nat) (s : State) : State :=
  emitEv "connection" (some "connected")
    { setReady i ReadyState.OPEN s with reconnectAttempts := 0 }

/-- The onclose handler of transport i: emit the connection event with
status disconnected, then run attemptReconnect with the captured
token.  It runs unconditionally, also when disconnect() already dropped
the reference. -/
def oncloseHandler (i : Nat) (token : String) (s : State) : State :=
  attemptReconnect token
    (emitEv "connection" (some "disconnected") (setReady i ReadyState.CLOSED s))

/-- The onerror handler: emit an error event. -/
def onerrorHandler (s : State) : State :=
  emitEv "error" none s

/-- Look up the token captured by the handlers of transport i. -/
def lookupToken : Nat → List (Nat × String) → Option String
  | _, [] => none
  | i, (j, t) :: rest => if i = j then some t else lookupToken i rest

/-- Events delivered to the client: API calls, transport lifecycle
events, and expiry of the earliest pending timer. -/
inductive Event
  | apiConnect (token : String)
  | apiDisconnect
  | sockOpen (i : Nat)
  | sockClose (i : Nat)
  | sockError (i : Nat)
  | timerFire
deriving DecidableEq

/-- Expire the earliest pending timer: advance the clock and run the
scheduled connect with the captured token. -/
def fireNextTimer (s : State) : State :=
  match s.timers with
  | [] => s
  | t :: rest => connect t.token { s with timers := rest, now := max s.now t.fireAt }

/-- Interpret one event.  Transport events run the corresponding handler
of transport i when that transport was constructed (its handlers exist),
and are ignored otherwise. -/
def step : Event → State → State
  | .apiConnect tok, s => connect tok s
  | .apiDisconnect, s => disconnect s
  | .sockOpen i, s =>
      match lookupToken i s.handlerTokens with
      | some _ => onopenHandler i s
      | none => s
  | .sockClose i, s =>
      match lookupToken i s.handlerTokens with
      | some tok => oncloseHandler i tok s
      | none => s
  | .sockError i, s =>
      match lookupToken i s.handlerTokens with
      | some _ => onerrorHandler s
      | none => s
  | .timerFire, s => fireNextTimer s

/-- Interpret a list of events from left to right. -/
def run (evs : List Event) (s : State) : State :=
  evs.foldl (fun st e => step e st) s

/-- The guard of send: a socket exists and its readyState is OPEN. -/
def isConnected (s : State) : Bool :=
  match s.socket with
  | some sock => sock.readyState = ReadyState.OPEN
  | none => false

/-- send(type, payload): returns the frames written to the transport and
the number of warnings logged.  When connected, one serialized frame;
otherwise zero frames and one console.warn. -/
def send (ty pl : String) (s : State) : List Frame × Nat :=
  match s.socket with
  | some sock =>
      if sock.readyState = ReadyState.OPEN then ([⟨ty, pl⟩], 0) else ([], 1)
  | none => ([], 1)

/-!
The listener registry (this.listeners) and event dispatch.  The JS Map
keyed by event name, with insertion-ordered keys and an array of
callbacks per key, is an association list.  Callbacks are opaque values
of a type with decidable equality (Array.prototype.indexOf compares by
reference).  A callback may throw when invoked; `throws` tells which
ones do.  `Array.prototype.forEach` invokes the callbacks in order and
lets an exception from one of them propagate, ending the iteration, so
dispatch returns the list of performed invocations (callback paired with
the data it received) and whether an exception escaped this.emit.
-/

variable {κ : Type}

/-- listeners.get(event): the callback array stored under an event name,
or none when the key is absent. -/
def getListeners (e : String) : List (String × List κ) → Option (List κ)
  | [] => none
  | (e2, cbs) :: rest => if e2 = e then some cbs else getListeners e rest

/-- Apply f to the callback array stored under an existing key. -/
def updateEvent (e : String) (f : List κ → List κ) :
    List (String × List κ) → List (String × List κ)
  | [] => []
  | (e2, cbs) :: rest =>
      if e2 = e then (e2, f cbs) :: rest else (e2, cbs) :: updateEvent e f rest

/-- on(event, callback) (named onEvt since on is a reserved token): create an empty array under the key when
absent, then push the callback. -/
def onEvt (e : String) (cb : κ) (l : List (String × List κ)) :
    List (String × List κ) :=
  match getListeners e l with
  | some _ => updateEvent e (fun cbs => cbs ++ [cb]) l
  | none => l ++ [(e, [cb])]

/-- indexOf followed by splice(index, 1): remove the first occurrence,
leave the array unchanged when the callback is absent. -/
def removeFirst [DecidableEq κ] (cb : κ) : List κ → List κ
  | [] => []
  | c :: rest => if c = cb then rest else c :: removeFirst cb rest

/-- off(event, callback): when the key exists, splice out the first
occurrence of the callback. -/
def off [DecidableEq κ] (e : String) (cb : κ) (l : List (String × List κ)) :
    List (String × List κ) :=
  match getListeners e l with
  | some _ => updateEvent e (removeFirst cb) l
  | none => l

/-- forEach(cb => cb(data)): invoke in order; the first throwing
callback ends the iteration and the exception propagates (second
component true). -/
def runSeq (throws : κ → Bool) (data : String) :
    List κ → List (κ × String) × Bool
  | [] => ([], false)
  | c :: rest =>
      if throws c then ([(c, data)], true)
      else
        let r := runSeq throws data rest
        ((c, data) :: r.1, r.2)

/-- emit(event, data): when listeners exist under the event, run them
with forEach; otherwise do nothing. -/
def emit (e : String) (data : String) (throws : κ → Bool)
    (l : List (String × List κ)) : List (κ × String) × Bool :=
  match getListeners e l with
  | some cbs => runSeq throws data cbs
  | none => ([], false)

/-- The onmessage handler: JSON.parse of the wire data yields either a
parsed frame or a parse failure; both the parse and the emit run inside
try/catch, so no exception escapes the handler (second component always
false).  Returns the performed listener invocations. -/
def onmessageHandler (parsed : Option Frame) (throws : κ → Bool)
    (l : List (String × List κ)) : List (κ × String) × Bool :=
  match parsed with
  | none => ([], false)
  | some f => ((emit f.type f.payload throws l).1, false)

/-!
Concrete scenario states and the exhaustion scenario used by the
claims about the retry policy.
-/

/-- A client whose single transport (id 0) is OPEN: the state after
connect("t") followed by the open event. -/
def connectedState : State :=
  { initState with
      socket := some ⟨0, ReadyState.OPEN⟩
      nextId := 1
      created := [0]
      handlerTokens := [(0, "t")]
      emitted := [⟨"connection", some "connected"⟩] }

/-- The trace refuting claim C1: connect, open, explicit disconnect, and
afterwards only environment events (the close of the explicitly closed
transport and the expiry of the timer that close scheduled). -/
def c1events : List Event :=
  [Event.apiConnect "t", Event.sockOpen 0, Event.apiDisconnect,
   Event.sockClose 0, Event.timerFire]

/-- A freshly constructed client with retry budget n. -/
def freshClient (n : Nat) : State :=
  { initState with maxReconnectAttempts := n }

/-- The id of the transport currently referenced by this.socket. -/
def currentSockId (s : State) : Nat :=
  match s.socket with
  | some sock => sock.id
  | none => 0

/-- One failed reconnection round: the current transport closes without
having opened, and the retry timer that close scheduled expires. -/
def failRound (s : State) : State :=
  fireNextTimer (step (Event.sockClose (currentSockId s)) s)

/-- k consecutive failed reconnection rounds. -/
def failRounds : Nat → State → State
  | 0, s => s
  | k + 1, s => failRound (failRounds k s)

/-- The exhaustion scenario for budget n: an initial connect, n failed
rounds (each one a consumed retry), and the close of the transport of the
n-th retry, which finds the budget exhausted. -/
def exhaustedRun (n : Nat) : State :=
  step (Event.sockClose (currentSockId (failRounds n (connect "t" (freshClient n)))))
    (failRounds n (connect "t" (freshClient n)))

/-- Invariant after k failed rounds of the exhaustion scenario: the
counter equals k, no timer is pending, the current transport is the
(k+1)-st constructed (id k) and still CONNECTING, every handler captured
the token, and no maxReconnectAttemptsReached was emitted. -/
structure RoundInv (n k : Nat) (s : State) : Prop where
  hmax : s.maxReconnectAttempts = n
  hatt : s.reconnectAttempts = k
  htimers : s.timers = []
  hsock : s.socket = some ⟨k, ReadyState.CONNECTING⟩
  htok : lookupToken k s.handlerTokens = some "t"
  hkeys : ∀ p ∈ s.handlerTokens, p.1 ≤ k
  hcreated : s.created.length = k + 1
  hnext : s.nextId = k + 1
  hnomax : (s.emitted.filter
    (fun r => r.event = "maxReconnectAttemptsReached")).length = 0

/-!  Helper lemmas.  -/

theorem lookupToken_append_of_ne (i : Nat) (l m : List (Nat × String))
    (h : ∀ p ∈ l, p.1 ≠ i) :
    lookupToken i (l ++ m) = lookupToken i m := by
  induction l with
  | nil => rfl
  | cons p rest ih =>
      have hp : p.1 ≠ i := h p (List.mem_cons_self p rest)
      have hr := ih (fun q hq => h q (List.mem_cons_of_mem p hq))
      cases p with
      | mk j t =>
          simp only [List.cons_append, lookupToken]
          rw [if_neg (fun he => hp he.symm)]
          exact hr

theorem runSeq_no_throw (throws : κ → Bool) (d : String) (cbs : List κ)
    (h : ∀ c ∈ cbs, throws c = false) :
    runSeq throws d cbs = (cbs.map (fun c => (c, d)), false) := by
  induction cbs with
  | nil => rfl
  | cons c rest ih =>
      have hc : throws c = false := h c (List.mem_cons_self c rest)
      have hr := ih (fun x hx => h x (List.mem_cons_of_mem c hx))
      simp [runSeq, hc, hr]

theorem runSeq_throw_at (throws : κ → Bool) (d : String)
    (pre : List κ) (c : κ) (post : List κ)
    (hpre : ∀ x ∈ pre, throws x = false) (hc : throws c = true) :
    runSeq throws d (pre ++ c :: post) =
      (pre.map (fun x => (x, d)) ++ [(c, d)], true) := by
  induction pre with
  | nil => simp [runSeq, hc]
  | cons p rest ih =>
      have hp : throws p = false := hpre p (List.mem_cons_self p rest)
      have hr := ih (fun x hx => hpre x (List.mem_cons_of_mem p hx))
      simp [runSeq, hp, hr]

/-!  Claims.  -/

/-- C1, counterexample.  The claim says that after an explicit
disconnect() no reconnection attempt ever fires automatically.  In the
trace connect, open, disconnect, close-of-transport-0, timer-expiry —
with no second connect() from the caller — a second transport (id 1) is
nevertheless constructed: the close handler of the explicitly closed
transport ran attemptReconnect and the scheduled timer executed
connect. -/
theorem C1_counterexample :
    (run [Event.apiConnect "t", Event.sockOpen 0, Event.apiDisconnect]
      initState).created = [0] ∧
    (run c1events initState).created = [0, 1] := by
  decide

/-- C4, counterexample.  The claim says a connect() while a previous
connect is still Connecting is a no-op.  From the fresh state, connect
constructs transport 0 which is still CONNECTING, and a second connect
call constructs transport 1: two transports are created. -/
theorem C4_counterexample :
    (connect "t" initState).socket = some ⟨0, ReadyState.CONNECTING⟩ ∧
    (connect "t" (connect "t" initState)).created = [0, 1] := by
  decide

/-- C5, counterexample.  The claim says a throwing listener does not
prevent dispatch to subsequently registered listeners.  With listeners 1
then 2 registered under "x" and listener 1 throwing, emit invokes only
listener 1 and the exception escapes this.emit: listener 2 is never
invoked. -/
theorem C5_counterexample :
    emit "x" "d" (fun c => c == 1)
      (onEvt "x" 2 (onEvt "x" 1 ([] : List (String × List Nat))))
      = ([(1, "d")], true) := by
  decide

/-- C8: send(type, payload) while Connected writes exactly one
serialized frame carrying that type and payload and logs no warning;
send while not Connected writes no frame and logs exactly one warning,
and in both cases no error is thrown or returned (send is total and
returns only the frames and warning count). -/
theorem C8_send (s : State) (ty pl : String) :
    (isConnected s = true → send ty pl s = ([⟨ty, pl⟩], 0)) ∧
    (isConnected s = false → send ty pl s = ([], 1)) := by
  cases hs : s.socket with
  | none => simp [isConnected, send, hs]
  | some sock =>
      by_cases hr : sock.readyState = ReadyState.OPEN <;>
        simp [isConnected, send, hs, hr]

/-- Witness for C8 at concrete states: the OPEN client writes the frame,
the fresh client drops it with one warning. -/
theorem C8_send_witness :
    send "a" "b" connectedState = ([⟨"a", "b"⟩], 0) ∧
    send "a" "b" initState = ([], 1) :=
  ⟨(C8_send connectedState "a" "b").1 (by decide),
   (C8_send initState "a" "b").2 (by decide)⟩

/-- C9: listeners are dispatched in registration order.  Registering A
then B under "x" and emitting "x" invokes A before B (the invocation
list is [A, B] in that order, each receiving the data); unregistering A
with off before the emission leaves only B invoked. -/
theorem C9_dispatch_order [DecidableEq κ] (A B : κ) (x d : String)
    (throws : κ → Bool) (hA : throws A = false) (hB : throws B = false) :
    (emit x d throws (onEvt x B (onEvt x A ([] : List (String × List κ))))).1
      = [(A, d), (B, d)] ∧
    (emit x d throws
      (onEvt x B (off x A (onEvt x A ([] : List (String × List κ)))))).1
      = [(B, d)] := by
  simp [onEvt, off, getListeners, updateEvent, removeFirst, emit, runSeq, hA, hB]

/-- Witness for C9 with the listeners 0 and 1 under "x". -/
theorem C9_dispatch_order_witness :
    (emit "x" "d" (fun _ => false)
      (onEvt "x" 1 (onEvt "x" 0 ([] : List (String × List Nat))))).1
      = [(0, "d"), (1, "d")] ∧
    (emit "x" "d" (fun _ => false)
      (onEvt "x" 1 (off "x" 0 (onEvt "x" 0 ([] : List (String × List Nat)))))).1
      = [(1, "d")] :=
  C9_dispatch_order 0 1 "x" "d" (fun _ => false) rfl rfl

/-- C10: registering the same callback twice under one event stores two
occurrences; one off call removes only the first occurrence, so a
subsequent emit invokes the callback exactly once; a second identical
off call removes the remaining occurrence. -/
theorem C10_duplicate [DecidableEq κ] (cb : κ) (x d : String)
    (throws : κ → Bool) (h : throws cb = false) :
    getListeners x (onEvt x cb (onEvt x cb ([] : List (String × List κ))))
      = some [cb, cb] ∧
    (emit x d throws
      (off x cb (onEvt x cb (onEvt x cb ([] : List (String × List κ)))))).1
      = [(cb, d)] ∧
    getListeners x
      (off x cb (off x cb (onEvt x cb (onEvt x cb ([] : List (String × List κ))))))
      = some [] := by
  simp [onEvt, off, getListeners, updateEvent, removeFirst, emit, runSeq, h]

/-- C1, amended: disconnect() closes the transport and discards the
reference, but it sets no terminal flag and cancels no pending timer —
every pending retry timer survives the call unchanged — and a close
event delivered after the explicit disconnect still runs the close
handler, which invokes the reconnection policy and, while the retry
budget is not exhausted, schedules a reconnect timer; so a connect can
execute after disconnect() without a fresh explicit connect(). -/
theorem C1_amended (s : State) (i : Nat) (tok : String)
    (hTok : lookupToken i s.handlerTokens = some tok)
    (hBudget : s.reconnectAttempts < s.maxReconnectAttempts) :
    (disconnect s).timers = s.timers ∧
    (step (Event.sockClose i) (disconnect s)).timers =
      s.timers ++ [⟨s.now + s.reconnectInterval * (s.reconnectAttempts + 1), tok⟩] := by
  cases hs : s.socket with
  | none =>
      simp [disconnect, hs, step, hTok, oncloseHandler, setReady, emitEv,
        attemptReconnect, hBudget]
  | some sock =>
      simp [disconnect, hs, step, hTok, oncloseHandler, setReady, emitEv,
        attemptReconnect, hBudget]

/-- Witness for C1 amended at the connected concrete state. -/
theorem C1_amended_witness :
    (disconnect connectedState).timers = connectedState.timers ∧
    (step (Event.sockClose 0) (disconnect connectedState)).timers =
      connectedState.timers ++
        [⟨connectedState.now +
            connectedState.reconnectInterval * (connectedState.reconnectAttempts + 1),
          "t"⟩] :=
  C1_amended connectedState 0 "t" (by decide) (by decide)

/-- C4, amended: connect(credential) is a no-op exactly when the
readyState of the current transport is OPEN; when a transport exists whose
readyState is not OPEN — in particular one still CONNECTING — connect
constructs a second transport and replaces the reference. -/
theorem C4_amended (s : State) (sock : Socket) (tok : String)
    (h : s.socket = some sock) :
    (sock.readyState = ReadyState.OPEN → connect tok s = s) ∧
    (sock.readyState ≠ ReadyState.OPEN →
      (connect tok s).created = s.created ++ [s.nextId] ∧
      (connect tok s).socket = some ⟨s.nextId, ReadyState.CONNECTING⟩) := by
  constructor <;> intro hr <;> simp [connect, h, hr, mkSocket]

/-- Witness for C4 amended: at the OPEN state connect is a no-op, and at
the fresh CONNECTING state a second transport appears. -/
theorem C4_amended_witness :
    connect "u" connectedState = connectedState ∧
    ((connect "u" (connect "t" initState)).created =
        (connect "t" initState).created ++ [(connect "t" initState).nextId] ∧
      (connect "u" (connect "t" initState)).socket =
        some ⟨(connect "t" initState).nextId, ReadyState.CONNECTING⟩) :=
  ⟨(C4_amended connectedState ⟨0, ReadyState.OPEN⟩ "u" (by decide)).1 (by decide),
   (C4_amended (connect "t" initState) ⟨0, ReadyState.CONNECTING⟩ "u"
      (by decide)).2 (by decide)⟩

/-- C5, amended: when a listener throws during dispatch, the listeners
registered after it under the same event are NOT invoked — forEach stops
at the throwing callback and the exception escapes this.emit — but on
the inbound-message path the exception is caught by the onmessage
try/catch, so it does not propagate out of the message-handling path. -/
theorem C5_amended (pre : List κ) (c : κ) (post : List κ)
    (e d : String) (throws : κ → Bool) (l : List (String × List κ))
    (hget : getListeners e l = some (pre ++ c :: post))
    (hpre : ∀ x ∈ pre, throws x = false) (hc : throws c = true) :
    emit e d throws l = (pre.map (fun x => (x, d)) ++ [(c, d)], true) ∧
    onmessageHandler (some ⟨e, d⟩) throws l =
      (pre.map (fun x => (x, d)) ++ [(c, d)], false) := by
  have h1 : emit e d throws l = (pre.map (fun x => (x, d)) ++ [(c, d)], true) := by
    unfold emit
    rw [hget]
    exact runSeq_throw_at throws d pre c post hpre hc
  exact ⟨h1, by simp [onmessageHandler, h1]⟩

/-- Witness for C5 amended: listeners 1, 2, 3 under "x", listener 2
throws; listener 3 is not invoked, the exception escapes emit but not
the onmessage handler. -/
theorem C5_amended_witness :
    emit "x" "d" (fun c => c == 2) [("x", [1, 2, 3])]
      = ([1].map (fun x : Nat => (x, "d")) ++ [(2, "d")], true) ∧
    onmessageHandler (some ⟨"x", "d"⟩) (fun c => c == 2) [("x", [1, 2, 3])]
      = ([1].map (fun x : Nat => (x, "d")) ++ [(2, "d")], false) :=
  C5_amended [1] 2 [3] "x" "d" (fun c => c == 2) [("x", [1, 2, 3])]
    (by decide) (by decide) (by decide)

/-- C3: while the budget is not exhausted, attemptReconnect increments
the retry counter before scheduling, the scheduled delay for the k-th
attempt (counter value k after the increment) equals baseInterval * k,
and the expiry of that timer executes connect with the last-used
credential. -/
theorem C3_linear_backoff (s : State) (tok : String)
    (h : s.reconnectAttempts < s.maxReconnectAttempts) :
    (attemptReconnect tok s).reconnectAttempts = s.reconnectAttempts + 1 ∧
    (attemptReconnect tok s).timers =
      s.timers ++ [⟨s.now + s.reconnectInterval * (s.reconnectAttempts + 1), tok⟩] ∧
    (s.timers = [] →
      fireNextTimer (attemptReconnect tok s) =
        connect tok
          { s with
              reconnectAttempts := s.reconnectAttempts + 1
              timers := []
              now := max s.now
                (s.now + s.reconnectInterval * (s.reconnectAttempts + 1)) }) := by
  refine ⟨by simp [attemptReconnect, h], by simp [attemptReconnect, h], ?_⟩
  intro ht
  simp [attemptReconnect, h, ht, fireNextTimer]

/-- Witness for C3 at the fresh state: the first retry is scheduled at
delay 1000 * 1 and its expiry runs connect with the credential. -/
theorem C3_linear_backoff_witness :
    (attemptReconnect "t" initState).reconnectAttempts =
      initState.reconnectAttempts + 1 ∧
    (attemptReconnect "t" initState).timers =
      initState.timers ++
        [⟨initState.now +
            initState.reconnectInterval * (initState.reconnectAttempts + 1), "t"⟩] ∧
    fireNextTimer (attemptReconnect "t" initState) =
      connect "t"
        { initState with
            reconnectAttempts := initState.reconnectAttempts + 1
            timers := []
            now := max initState.now
              (initState.now +
                initState.reconnectInterval * (initState.reconnectAttempts + 1)) } := by
  have h := C3_linear_backoff initState "t" (by decide)
  exact ⟨h.1, h.2.1, h.2.2 rfl⟩

/-- C7: a parse failure of the inbound wire data is dropped — the
handler performs no listener invocation and lets no exception escape —
and a successfully parsed frame is dispatched, with its payload, to all
listeners registered under the parsed type (in order), provided the
listeners themselves return normally. -/
theorem C7_parse (throws : κ → Bool) (l : List (String × List κ)) (f : Frame)
    (h : ∀ c ∈ (getListeners f.type l).getD [], throws c = false) :
    onmessageHandler (none : Option Frame) throws l = ([], false) ∧
    onmessageHandler (some f) throws l =
      (((getListeners f.type l).getD []).map (fun c => (c, f.payload)), false) := by
  refine ⟨rfl, ?_⟩
  unfold onmessageHandler emit
  cases hg : getListeners f.type l with
  | none => simp [hg]
  | some cbs =>
      rw [hg] at h
      simp only [Option.getD_some] at h
      simp [hg, runSeq_no_throw throws f.payload cbs h]

/-- Witness for C7: the registry with listeners 4 and 5 under "evt";
parse failure invokes nothing, the parsed frame reaches both. -/
theorem C7_parse_witness :
    onmessageHandler (none : Option Frame) (fun _ => false)
      [("evt", [4, 5])] = ([], false) ∧
    onmessageHandler (some ⟨"evt", "p"⟩) (fun _ => false) [("evt", [4, 5])]
      = (((getListeners "evt" [("evt", [4, 5])]).getD []).map
          (fun c : Nat => (c, "p")), false) :=
  C7_parse (fun _ => false) [("evt", [4, 5])] ⟨"evt", "p"⟩ (by decide)

/-- C6: on a successful transport open the retry counter is reset to 0
and a connection event with status connected is emitted; consequently
the next unplanned close of that transport begins a fresh retry sequence
whose first scheduled delay is baseInterval * 1. -/
theorem C6_open_resets (s : State) (i : Nat) (tok : String)
    (hTok : lookupToken i s.handlerTokens = some tok)
    (hMax : 0 < s.maxReconnectAttempts) :
    (step (Event.sockOpen i) s).reconnectAttempts = 0 ∧
    (step (Event.sockOpen i) s).emitted =
      s.emitted ++ [⟨"connection", some "connected"⟩] ∧
    (step (Event.sockClose i) (step (Event.sockOpen i) s)).timers =
      s.timers ++ [⟨s.now + s.reconnectInterval * 1, tok⟩] := by
  cases hs : s.socket with
  | none =>
      simp [step, hTok, onopenHandler, oncloseHandler, setReady, emitEv,
        attemptReconnect, hs, hMax]
  | some sock =>
      by_cases hid : sock.id = i <;>
        simp [step, hTok, onopenHandler, oncloseHandler, setReady, emitEv,
          attemptReconnect, hs, hid, hMax]

/-- Witness for C6 at the state whose transport 0 is OPEN. -/
theorem C6_open_resets_witness :
    (step (Event.sockOpen 0) connectedState).reconnectAttempts = 0 ∧
    (step (Event.sockOpen 0) connectedState).emitted =
      connectedState.emitted ++ [⟨"connection", some "connected"⟩] ∧
    (step (Event.sockClose 0) (step (Event.sockOpen 0) connectedState)).timers =
      connectedState.timers ++
        [⟨connectedState.now + connectedState.reconnectInterval * 1, "t"⟩] :=
  C6_open_resets connectedState 0 "t" (by decide) (by decide)

/-- The exhaustion-scenario invariant holds after the initial connect. -/
theorem roundInv_zero (n : Nat) : RoundInv n 0 (connect "t" (freshClient n)) := by
  refine ⟨?_, ?_, ?_, ?_, ?_, ?_, ?_, ?_, ?_⟩ <;>
    simp [connect, freshClient, initState, mkSocket, lookupToken]

/-- One failed round preserves the invariant, advancing the counter. -/
theorem roundInv_step (n k : Nat) (s : State) (hk : k < n)
    (inv : RoundInv n k s) : RoundInv n (k + 1) (failRound s) := by
  obtain ⟨hmax, hatt, htimers, hsock, htok, hkeys, hcreated, hnext, hnomax⟩ := inv
  have hfr : failRound s =
      { s with
          socket := some ⟨k + 1, ReadyState.CONNECTING⟩
          reconnectAttempts := k + 1
          timers := []
          now := max s.now (s.now + s.reconnectInterval * (k + 1))
          nextId := k + 2
          created := s.created ++ [k + 1]
          handlerTokens := s.handlerTokens ++ [(k + 1, "t")]
          emitted := s.emitted ++ [⟨"connection", some "disconnected"⟩] } := by
    simp [failRound, currentSockId, hsock, step, htok, oncloseHandler, setReady,
      emitEv, attemptReconnect, hatt, hmax, hk, htimers, hnext, fireNextTimer,
      connect, mkSocket]
  refine ⟨?_, ?_, ?_, ?_, ?_, ?_, ?_, ?_, ?_⟩ <;> rw [hfr]
  · exact hmax
  · have hne : ∀ p ∈ s.handlerTokens, p.1 ≠ k + 1 := by
      intro p hp
      exact Nat.ne_of_lt (Nat.lt_succ_of_le (hkeys p hp))
    show lookupToken (k + 1) (s.handlerTokens ++ [(k + 1, "t")]) = some "t"
    rw [lookupToken_append_of_ne (k + 1) s.handlerTokens [(k + 1, "t")] hne]
    simp [lookupToken]
  · intro p hp
    rcases List.mem_append.mp hp with h1 | h2
    · exact Nat.le_succ_of_le (hkeys p h1)
    · simp at h2
      simp [h2]
  · simp [hcreated]
  · simp [List.filter_append, hnomax]

/-- The invariant after k failed rounds, for every k within budget. -/
theorem roundInv_iter (n k : Nat) (hk : k ≤ n) :
    RoundInv n k (failRounds k (connect "t" (freshClient n))) := by
  induction k with
  | zero => exact roundInv_zero n
  | succ m ih =>
      exact roundInv_step n m _ (Nat.lt_of_succ_le hk)
        (ih (Nat.le_of_succ_le hk))

/-- C2: for every retry budget n, after the initial connect and n
consecutive failed reconnection attempts, the close that finds the
budget exhausted emits maxReconnectAttemptsReached exactly once,
schedules no further timer (none is pending), leaves the final transport
CLOSED, and exactly n + 1 transports were ever constructed (the initial
connect plus the n retries — no further automatic connect). -/
theorem C2_exhaustion (n : Nat) :
    ((exhaustedRun n).emitted.filter
        (fun r => r.event = "maxReconnectAttemptsReached")).length = 1 ∧
    (exhaustedRun n).timers = [] ∧
    (exhaustedRun n).socket = some ⟨n, ReadyState.CLOSED⟩ ∧
    (exhaustedRun n).created.length = n + 1 := by
  obtain ⟨hmax, hatt, htimers, hsock, htok, hkeys, hcreated, hnext, hnomax⟩ :=
    roundInv_iter n n (Nat.le_refl n)
  have hfinal : exhaustedRun n =
      { failRounds n (connect "t" (freshClient n)) with
          socket := some ⟨n, ReadyState.CLOSED⟩
          emitted := (failRounds n (connect "t" (freshClient n))).emitted ++
            [⟨"connection", some "disconnected"⟩,
             ⟨"maxReconnectAttemptsReached", none⟩] } := by
    simp [exhaustedRun, currentSockId, hsock, step, htok, oncloseHandler,
      setReady, emitEv, attemptReconnect, hatt, hmax]
  rw [hfinal]
  refine ⟨?_, ?_, ?_, ?_⟩
  · simp [List.filter_append, hnomax]
  · exact htimers
  · rfl
  · simp [hcreated]

/-- Witness for C10 with callback 7 under "x". -/
theorem C10_duplicate_witness :
    getListeners "x" (onEvt "x" 7 (onEvt "x" 7 ([] : List (String × List Nat))))
      = some [7, 7] ∧
    (emit "x" "d" (fun _ => false)
      (off "x" 7 (onEvt "x" 7 (onEvt "x" 7 ([] : List (String × List Nat)))))).1
      = [(7, "d")] ∧
    getListeners "x"
      (off "x" 7 (off "x" 7 (onEvt "x" 7 (onEvt "x" 7 ([] : List (String × List Nat))))))
      = some [] :=
  C10_duplicate 7 "x" "d" (fun _ => false) rfl

end RealtimeClient
